import Mathlib

/-!
Verification development of the kissim fingerprint generation and
persistence pipeline (`kissim.encoding.Fingerprint`,
`kissim.encoding.FingerprintGenerator`).

The repository sources available contain only the tutorial notebook
`docs/tutorials/fingerprint_generator.ipynb`, which exercises
`FingerprintGenerator.from_structure_klifs_ids`, `to_json` and
`from_json`.  The bodies of those library functions are not present, so
every definition below carries a doc comment starting
`Modelled from the spec:` and embeds the behaviour the specification
document describes: a batch orchestrator mapping a worklist of structure
KLIFS identifiers to per-record fingerprints (with per-record failure
tolerance, configurable parallelism and diagnostics), and a lossless
JSON-like persistence contract with an explicit missing-value sentinel.

Floating-point feature values are modelled as exact rationals (`ℚ`),
with the missing-value sentinel (NaN) modelled explicitly as `Option.none`;
the persistence format writes the sentinel as an explicit `null` marker,
mirroring the spec requirement that it is "not silently coerced to zero
or omitted" and that numbers survive the text encoding exactly.
-/

namespace Kissim

/-- Modelled from the spec: a feature value is a floating-point number or
the missing-value sentinel (NaN).  `none` is the sentinel, `some q` an
exact numeric value. -/
abbrev FeatureValue := Option ℚ

/-- Modelled from the spec: `kissim.encoding.Fingerprint` (absent from the
available sources) — an immutable value object holding one record's
source identifier plus one or more named numeric feature blocks, each a
fixed-shape array of feature values. -/
structure Fingerprint where
  structure_klifs_id : Nat
  blocks : List (String × List FeatureValue)
  deriving Repr, DecidableEq

/-- Modelled from the spec: the shape/schema of a fingerprint — the
ordered list of block names together with each block's length. -/
def Fingerprint.schema (fp : Fingerprint) : List (String × Nat) :=
  fp.blocks.map (fun b => (b.1, b.2.length))

/-- Modelled from the spec: `Fingerprint.values_array` — the flattened
numeric view, the concatenation of the blocks in their stored order
(values are never silently reordered). -/
def Fingerprint.values_array (fp : Fingerprint) : List FeatureValue :=
  (fp.blocks.map Prod.snd).flatten

/-- Modelled from the spec: `kissim.encoding.FingerprintGenerator`
(absent from the available sources) — the fingerprint collection: a
mapping from structure KLIFS identifier to `Fingerprint`, insertion
order preserved. -/
structure FingerprintGenerator where
  data : List (Nat × Fingerprint)
  deriving Repr, DecidableEq

/-- The identifiers of the collection in insertion order. -/
def FingerprintGenerator.ids (fg : FingerprintGenerator) : List Nat :=
  fg.data.map Prod.fst

/-- Every stored fingerprint records the identifier it is keyed by. -/
def FingerprintGenerator.wellKeyed (fg : FingerprintGenerator) : Prop :=
  ∀ e ∈ fg.data, (e.2).structure_klifs_id = e.1

instance (fg : FingerprintGenerator) : Decidable fg.wellKeyed := by
  unfold FingerprintGenerator.wellKeyed
  infer_instance

/-- All fingerprints of the collection share one block schema. -/
def FingerprintGenerator.schemaConsistent (fg : FingerprintGenerator) : Prop :=
  ∀ e ∈ fg.data, ∀ e2 ∈ fg.data, (e.2).schema = (e2.2).schema

instance (fg : FingerprintGenerator) : Decidable fg.schemaConsistent := by
  unfold FingerprintGenerator.schemaConsistent
  infer_instance

/-! ### Persistence: the JSON-like interchange document -/

/-- Modelled from the spec: a structured, human-readable text document —
a JSON value with exact numerics and an explicit `null` missing-value
marker. -/
inductive Json where
  | null : Json
  | num : ℚ → Json
  | arr : List Json → Json
  | obj : List (String × Json) → Json

/-- Modelled from the spec: the persisted document is a top-level
construct keyed by each fingerprint's identifier. -/
abbrev Document := List (Nat × Json)

/-- One feature value as JSON: the missing-value sentinel is written as
an explicit, distinguishable marker (`null`), never coerced or omitted. -/
def featureToJson : FeatureValue → Json
  | none => Json.null
  | some q => Json.num q

/-- One fingerprint as the nested, block-named JSON representation. -/
def fingerprintToJson (fp : Fingerprint) : Json :=
  Json.obj (fp.blocks.map (fun b => (b.1, Json.arr (b.2.map featureToJson))))

/-- Modelled from the spec: `FingerprintGenerator.to_json` (absent from
the available sources) serializes every fingerprint of the collection to
a document keyed by identifier. -/
def FingerprintGenerator.to_json (fg : FingerprintGenerator) : Document :=
  fg.data.map (fun e => (e.1, fingerprintToJson e.2))

/-- Errors that `from_json` can surface: a format error for a document
not parseable as the expected structure, a schema error for
inconsistent block shapes across records. -/
inductive LoadError where
  | formatError : LoadError
  | schemaError : LoadError
  deriving Repr, DecidableEq

/-- Parse one JSON value as a feature value; anything but a number or
the `null` sentinel is a format error. -/
def parseFeature : Json → Option FeatureValue
  | Json.null => some none
  | Json.num q => some (some q)
  | _ => none

/-- Parse each element of a list, failing as soon as one element fails
(the all-or-nothing shape of the document parser). -/
def mapOption {α β : Type} (f : α → Option β) : List α → Option (List β)
  | [] => some []
  | a :: t =>
      match f a, mapOption f t with
      | some b, some bs => some (b :: bs)
      | _, _ => none

/-- Parse one named block: the value must be an array of feature
values. -/
def parseBlock : String × Json → Option (String × List FeatureValue)
  | (name, Json.arr xs) => (mapOption parseFeature xs).map (fun vs => (name, vs))
  | _ => none

/-- Parse the JSON of a single record (keyed by `id`) back into a
fingerprint: the value must be an object of named blocks. -/
def parseFingerprint (id : Nat) : Json → Option Fingerprint
  | Json.obj kvs => (mapOption parseBlock kvs).map
      (fun blocks => { structure_klifs_id := id, blocks := blocks })
  | _ => none

/-- Parse one top-level document entry. -/
def parseEntry (e : Nat × Json) : Option (Nat × Fingerprint) :=
  (parseFingerprint e.1 e.2).map (fun fp => (e.1, fp))

/-- Parse the whole document structurally (no schema check yet). -/
def parseDocument (doc : Document) : Option (List (Nat × Fingerprint)) :=
  mapOption parseEntry doc

/-- Decidable schema-consistency check over a parsed record list: every
record's block shapes must agree with the first record's. -/
def recordsConsistent : List (Nat × Fingerprint) → Bool
  | [] => true
  | e :: rest => rest.all (fun e2 => (e2.2).schema == (e.2).schema)

/-- Modelled from the spec: `FingerprintGenerator.from_json` (absent
from the available sources) parses the document and reconstructs the
collection, failing with a format error when the document does not have
the expected structure and with a schema error when a record's block
shapes are inconsistent with the rest of the collection.  No partial
collection is ever returned. -/
def FingerprintGenerator.from_json (doc : Document) :
    Except LoadError FingerprintGenerator :=
  match parseDocument doc with
  | none => Except.error LoadError.formatError
  | some records =>
      if recordsConsistent records then
        Except.ok { data := records }
      else
        Except.error LoadError.schemaError

instance {ε α : Type} [DecidableEq ε] [DecidableEq α] :
    DecidableEq (Except ε α) := fun a b =>
  match a, b with
  | Except.ok x, Except.ok y =>
      if h : x = y then isTrue (by rw [h])
      else isFalse (by intro hc; cases hc; exact h rfl)
  | Except.error x, Except.error y =>
      if h : x = y then isTrue (by rw [h])
      else isFalse (by intro hc; cases hc; exact h rfl)
  | Except.ok _, Except.error _ => isFalse (by intro hc; cases hc)
  | Except.error _, Except.ok _ => isFalse (by intro hc; cases hc)

/-! ### The batch orchestrator -/

/-- Modelled from the spec: the KLIFS data-access session capability —
a single operation "resolve identifier → structural input or failure".
`ι` is the type of raw structural input; local and remote sessions are
interchangeable implementations of this one operation. -/
structure Session (ι : Type) where
  fetch : Nat → Option ι

/-- Modelled from the spec: the per-structure feature-extraction
function — "structural input → Fingerprint or empty result", pure and
side-effect free; it receives the identifier so the fingerprint can
record its source. -/
abbrev Extract (ι : Type) := Nat → ι → Option Fingerprint

/-- One record's independent computation: fetch structural input via the
session, then run feature extraction.  Either step may signal "no
fingerprint"; that is a normal outcome, not an error. -/
def computeOne {ι : Type} (s : Session ι) (extract : Extract ι) (id : Nat) :
    Option Fingerprint :=
  (s.fetch id).bind (extract id)

/-- Sequential processing: identifiers one at a time in worklist order.
Returns the per-attempt results (in worklist order, failures kept as
`none`) together with the trace of fetch calls made on the session. -/
def runSequential {ι : Type} (s : Session ι) (extract : Extract ι) :
    List Nat → List (Nat × Option Fingerprint) × List Nat
  | [] => ([], [])
  | id :: rest =>
      ((id, computeOne s extract id) :: (runSequential s extract rest).1,
       id :: (runSequential s extract rest).2)

/-- Split a list into contiguous chunks of size `max k 1`, preserving
order; used to partition the worklist across workers. -/
def chunksOf {α : Type} (k : Nat) : List α → List (List α)
  | [] => []
  | a :: t => ((a :: t).take (max k 1)) :: chunksOf k ((a :: t).drop (max k 1))
termination_by l => l.length
decreasing_by
  simp only [List.length_drop, List.length_cons]
  omega

/-- Modelled from the spec: parallel execution — the worklist is
distributed across a fixed-size pool of `n` independent workers as
contiguous partitions; each worker computes fingerprints for its
assigned subset with its own fetch+extract sequence, and the per-worker
partial results are merged into one list only after all workers
complete, preserving original worklist order (completion order never
leaks into the merged result). -/
def runParallel {ι : Type} (s : Session ι) (extract : Extract ι)
    (wl : List Nat) (n : Nat) :
    List (Nat × Option Fingerprint) × List Nat :=
  let csize := (wl.length + n - 1) / n
  let results := (chunksOf csize wl).map (fun part => runSequential s extract part)
  ((results.map Prod.fst).flatten, (results.map Prod.snd).flatten)

/-- Diagnostics reported by the orchestrator: parallelism degree used,
number of input structures, number of produced fingerprints (all
attempts' results, failures included), and number of produced
fingerprints excluding failures ("without None"). -/
structure Diagnostics where
  n_cores : Int
  n_input : Nat
  n_fingerprints : Nat
  n_fingerprints_not_none : Nat
  deriving Repr, DecidableEq

/-- A configuration error: invalid parallelism degree. -/
inductive ConfigError where
  | invalidNCores : ConfigError
  deriving Repr, DecidableEq

/-- The orchestrator's observable outcome: the collection of successful
fingerprints plus the reported diagnostics. -/
structure GenResult where
  fingerprints : FingerprintGenerator
  diagnostics : Diagnostics
  deriving Repr, DecidableEq

/-- Modelled from the spec:
`FingerprintGenerator.from_structure_klifs_ids` (absent from the
available sources) — the batch orchestrator.  `parallelism < 1` is a
configuration error that fails fast before any computation starts; with
`n_cores = 1` the worklist is processed sequentially, with
`n_cores > 1` it is partitioned across a worker pool and merged in
worklist order.  Successes are kept (keyed by identifier, insertion
order following the worklist); failed records are dropped and never
abort the batch.  The second component is the trace of fetch calls made
on the session, returned for observability only. -/
def FingerprintGenerator.from_structure_klifs_ids {ι : Type}
    (structure_klifs_ids : List Nat) (s : Session ι) (extract : Extract ι)
    (n_cores : Int) : Except ConfigError GenResult × List Nat :=
  if n_cores < 1 then (Except.error ConfigError.invalidNCores, [])
  else
    let run :=
      if n_cores = 1 then runSequential s extract structure_klifs_ids
      else runParallel s extract structure_klifs_ids n_cores.toNat
    let successes := run.1.filterMap
      (fun e => (e.2).map (fun fp => (e.1, fp)))
    (Except.ok
      { fingerprints := { data := successes }
        diagnostics :=
          { n_cores := n_cores
            n_input := structure_klifs_ids.length
            n_fingerprints := run.1.length
            n_fingerprints_not_none := successes.length } },
     run.2)

/-- The worklist filtered to successful computations, each identifier
paired with its fingerprint, in worklist order: the reference result
used to state the orchestrator's ordering and parallelism-invariance
guarantees. -/
def successList {ι : Type} (s : Session ι) (extract : Extract ι)
    (wl : List Nat) : List (Nat × Fingerprint) :=
  wl.filterMap (fun id => (computeOne s extract id).map (fun fp => (id, fp)))

/-! ### Atomic save -/

/-- Modelled from the spec: the observable state of the save
destination, together with the temporary location used for atomic
writing. -/
structure FileState where
  dest : Option Document
  temp : Option Document

/-- An I/O error: the destination medium cannot be written. -/
inductive SaveError where
  | ioError : SaveError
  deriving Repr, DecidableEq

/-- Modelled from the spec: writing the serialized document to the
temporary location.  When the medium is unwritable the step fails with
an I/O error; an interrupted write may leave arbitrary `truncated` data
at the temporary location, but the destination is untouched by this
step. -/
def writeTemp (writable : Bool) (doc truncated : Document) (fs : FileState) :
    Except SaveError Unit × FileState :=
  if writable then (Except.ok (), { fs with temp := some doc })
  else (Except.error SaveError.ioError, { fs with temp := some truncated })

/-- Modelled from the spec: atomically renaming/replacing the completed
temporary file into the destination. -/
def renameTempToDest (fs : FileState) : Except SaveError Unit × FileState :=
  match fs.temp with
  | some doc => (Except.ok (), { dest := some doc, temp := none })
  | none => (Except.error SaveError.ioError, fs)

/-- Modelled from the spec: the file-writing half of
`FingerprintGenerator.to_json` — serialize the collection, write the
document to a temporary location, then rename/replace it into the
destination, so that a failed save leaves no partial output at the
destination. -/
def FingerprintGenerator.save (fg : FingerprintGenerator) (writable : Bool)
    (truncated : Document) (fs : FileState) :
    Except SaveError Unit × FileState :=
  match writeTemp writable fg.to_json truncated fs with
  | (Except.ok _, fs2) => renameTempToDest fs2
  | (Except.error e, fs2) => (Except.error e, fs2)

/-! ### Concrete fixtures (from the tutorial notebook's scenario) -/

/-- A session in which fetching structural input always succeeds (the
raw input is represented by the identifier itself). -/
def exampleSession : Session Nat := { fetch := fun id => some id }

/-- An extraction function for which identifier 118 always fails
extraction and every other identifier yields a fingerprint of the fixed
schema; feature values include the missing-value sentinel. -/
def exampleExtract : Extract Nat := fun id _ =>
  if id = 118 then none
  else some { structure_klifs_id := id
              blocks := [("physchem", [some (mkRat 3 2), none, some (mkRat (-9) 4)]),
                         ("distances", [some (mkRat 1 1)])] }

/-- An extraction function that fails on every record. -/
def failingExtract : Extract Nat := fun _ _ => none

/-- A concrete fingerprint for structure KLIFS ID 109, with a
missing-value sentinel among its feature values. -/
def exampleFingerprint109 : Fingerprint :=
  { structure_klifs_id := 109
    blocks := [("physchem", [some (mkRat 3 2), none, some (mkRat (-9) 4)]),
               ("distances", [some (mkRat 1 1)])] }

/-- A concrete fingerprint for structure KLIFS ID 110, same schema. -/
def exampleFingerprint110 : Fingerprint :=
  { structure_klifs_id := 110
    blocks := [("physchem", [some (mkRat 7 1), some (mkRat 0 1), none]),
               ("distances", [none])] }

/-- A concrete two-record collection. -/
def exampleCollection : FingerprintGenerator :=
  { data := [(109, exampleFingerprint109), (110, exampleFingerprint110)] }

/-- A concrete fingerprint whose block shapes disagree with
`exampleFingerprint109`. -/
def exampleFingerprintBadShape : Fingerprint :=
  { structure_klifs_id := 111
    blocks := [("physchem", [some (mkRat 1 1)])] }

/-- A persisted document whose two records have inconsistent block
shapes. -/
def inconsistentDocument : Document :=
  [(109, fingerprintToJson exampleFingerprint109),
   (111, fingerprintToJson exampleFingerprintBadShape)]

/-- A document that is not parseable as the expected structure (the
record value is a bare number, not an object of named blocks). -/
def malformedDocument : Document := [(5, Json.num (mkRat 3 1))]

/-- A concrete initial file state: the destination holds an old
document, the temporary location is clean. -/
def exampleFileState : FileState :=
  { dest := some malformedDocument, temp := none }

/-- The fixed block schema produced by `exampleExtract`. -/
def exampleSchema : List (String × Nat) := [("physchem", 3), ("distances", 1)]

/-- The expected orchestrator outcome for worklist [109] under the
example session and extraction. -/
def exampleGenResult : GenResult :=
  { fingerprints := { data := [(109, exampleFingerprint109)] }
    diagnostics :=
      { n_cores := 1, n_input := 1, n_fingerprints := 1,
        n_fingerprints_not_none := 1 } }

/-! ## Persistence lemmas -/

theorem parseFeature_featureToJson (v : FeatureValue) :
    parseFeature (featureToJson v) = some v := by
  cases v <;> rfl

theorem mapOption_parseFeature (vs : List FeatureValue) :
    mapOption parseFeature (vs.map featureToJson) = some vs := by
  induction vs with
  | nil => rfl
  | cons v t ih => simp [mapOption, parseFeature_featureToJson, ih]

theorem parseBlock_toJson (b : String × List FeatureValue) :
    parseBlock (b.1, Json.arr (b.2.map featureToJson)) = some b := by
  simp [parseBlock, mapOption_parseFeature]

theorem mapOption_parseBlock (bs : List (String × List FeatureValue)) :
    mapOption parseBlock (bs.map (fun b => (b.1, Json.arr (b.2.map featureToJson)))) =
      some bs := by
  induction bs with
  | nil => rfl
  | cons b t ih => simp [mapOption, parseBlock_toJson, ih]

theorem parseFingerprint_fingerprintToJson (id : Nat) (fp : Fingerprint) :
    parseFingerprint id (fingerprintToJson fp) =
      some { structure_klifs_id := id, blocks := fp.blocks } := by
  simp [parseFingerprint, fingerprintToJson, mapOption_parseBlock]

theorem parseEntry_toJson (e : Nat × Fingerprint)
    (h : (e.2).structure_klifs_id = e.1) :
    parseEntry (e.1, fingerprintToJson e.2) = some e := by
  obtain ⟨i, fp⟩ := e
  simp only at h
  subst h
  simp only [parseEntry, parseFingerprint_fingerprintToJson, Option.map_some']

theorem mapOption_parseEntry (l : List (Nat × Fingerprint))
    (h : ∀ e ∈ l, (e.2).structure_klifs_id = e.1) :
    mapOption parseEntry (l.map (fun e => (e.1, fingerprintToJson e.2))) = some l := by
  induction l with
  | nil => rfl
  | cons a t ih =>
      simp only [List.map_cons, mapOption]
      rw [parseEntry_toJson a (h a (List.mem_cons_self a t)),
          ih (fun e he => h e (List.mem_cons_of_mem a he))]

theorem parseDocument_to_json (fg : FingerprintGenerator) (h : fg.wellKeyed) :
    parseDocument fg.to_json = some fg.data :=
  mapOption_parseEntry fg.data h

theorem recordsConsistent_of_schemaConsistent (fg : FingerprintGenerator)
    (h : fg.schemaConsistent) : recordsConsistent fg.data = true := by
  rcases hd : fg.data with _ | ⟨a, t⟩
  · rfl
  · simp only [recordsConsistent, List.all_eq_true]
    intro e he
    have h1 := h e (by rw [hd]; exact List.mem_cons_of_mem a he)
      a (by rw [hd]; exact List.mem_cons_self a t)
    simpa using h1

theorem schemas_eq_of_recordsConsistent (l : List (Nat × Fingerprint))
    (h : recordsConsistent l = true) (e1 e2 : Nat × Fingerprint)
    (h1 : e1 ∈ l) (h2 : e2 ∈ l) : (e1.2).schema = (e2.2).schema := by
  cases l with
  | nil => cases h1
  | cons a t =>
      simp only [recordsConsistent, List.all_eq_true] at h
      have ha : ∀ x ∈ a :: t, (x.2).schema = (a.2).schema := by
        intro x hx
        rcases List.mem_cons.mp hx with rfl | hx
        · rfl
        · simpa using h x hx
      rw [ha e1 h1, ha e2 h2]

/-! ## Orchestrator lemmas -/

theorem runSequential_eq {ι : Type} (s : Session ι) (ex : Extract ι)
    (wl : List Nat) :
    runSequential s ex wl = (wl.map (fun id => (id, computeOne s ex id)), wl) := by
  induction wl with
  | nil => rfl
  | cons a t ih => simp [runSequential, ih]

theorem chunksOf_flatten {α : Type} (k : Nat) (l : List α) :
    (chunksOf k l).flatten = l := by
  induction l using chunksOf.induct k with
  | case1 => simp [chunksOf]
  | case2 a t ih =>
      rw [chunksOf, List.flatten_cons, ih, List.take_append_drop]

theorem runParallel_eq {ι : Type} (s : Session ι) (ex : Extract ι)
    (wl : List Nat) (n : Nat) :
    runParallel s ex wl n = (wl.map (fun id => (id, computeOne s ex id)), wl) := by
  unfold runParallel
  simp only [runSequential_eq, List.map_map, Function.comp_def]
  rw [← List.map_flatten, chunksOf_flatten, List.map_id', chunksOf_flatten]

theorem from_structure_klifs_ids_ok {ι : Type} (wl : List Nat) (s : Session ι)
    (ex : Extract ι) (n : Int) (h : 1 ≤ n) :
    FingerprintGenerator.from_structure_klifs_ids wl s ex n =
      (Except.ok
        { fingerprints := { data := successList s ex wl }
          diagnostics :=
            { n_cores := n
              n_input := wl.length
              n_fingerprints := wl.length
              n_fingerprints_not_none := (successList s ex wl).length } },
       wl) := by
  unfold FingerprintGenerator.from_structure_klifs_ids
  have hn : ¬ n < 1 := not_lt.mpr h
  by_cases h1 : n = 1 <;>
    simp [hn, h1, runSequential_eq, runParallel_eq, successList,
      List.filterMap_map, Function.comp_def]

theorem successList_map_fst {ι : Type} (s : Session ι) (ex : Extract ι)
    (wl : List Nat) :
    (successList s ex wl).map Prod.fst =
      wl.filter (fun id => (computeOne s ex id).isSome) := by
  induction wl with
  | nil => rfl
  | cons a t ih =>
      unfold successList at ih ⊢
      rw [List.filterMap_cons, List.filter_cons]
      cases hc : computeOne s ex a with
      | none => simpa [hc] using ih
      | some fp => simp [hc, ih]

theorem mem_successList {ι : Type} (s : Session ι) (ex : Extract ι)
    (wl : List Nat) (en : Nat × Fingerprint) (h : en ∈ successList s ex wl) :
    computeOne s ex en.1 = some en.2 := by
  unfold successList at h
  rcases List.mem_filterMap.mp h with ⟨id, _, hmap⟩
  cases hc : computeOne s ex id with
  | none => rw [hc] at hmap; cases hmap
  | some fp =>
      rw [hc, Option.map_some'] at hmap
      injection hmap with h2
      subst h2
      exact hc

theorem successList_nil_of_all_fail {ι : Type} (s : Session ι) (ex : Extract ι)
    (wl : List Nat) (h : ∀ id ∈ wl, computeOne s ex id = none) :
    successList s ex wl = [] := by
  induction wl with
  | nil => rfl
  | cons a t ih =>
      unfold successList at ih ⊢
      rw [List.filterMap_cons, h a (List.mem_cons_self a t)]
      simpa using ih (fun id hid => h id (List.mem_cons_of_mem a hid))

theorem successList_length_of_all_succeed {ι : Type} (s : Session ι)
    (ex : Extract ι) (wl : List Nat)
    (h : ∀ id ∈ wl, (computeOne s ex id).isSome = true) :
    (successList s ex wl).length = wl.length := by
  induction wl with
  | nil => rfl
  | cons a t ih =>
      unfold successList at ih ⊢
      rw [List.filterMap_cons]
      cases hc : computeOne s ex a with
      | none =>
          have := h a (List.mem_cons_self a t)
          rw [hc] at this
          cases this
      | some fp =>
          simpa [hc] using ih (fun id hid => h id (List.mem_cons_of_mem a hid))

theorem computeOne_schema {ι : Type} (s : Session ι) (ex : Extract ι)
    (id : Nat) (fp : Fingerprint) (σ : List (String × Nat))
    (hex : ∀ id2 x fp2, ex id2 x = some fp2 → fp2.schema = σ)
    (hc : computeOne s ex id = some fp) : fp.schema = σ := by
  unfold computeOne at hc
  cases hf : s.fetch id with
  | none => rw [hf] at hc; cases hc
  | some x =>
      rw [hf, Option.some_bind] at hc
      exact hex id x fp hc

/-! ## Claim theorems -/

/-- C1: for every well-formed fingerprint collection (each fingerprint
keyed by its own identifier, all fingerprints sharing one block schema),
loading the document produced by saving it — `from_json (to_json C)` —
yields a collection value-identical to `C`: same identifiers, same block
structure, exact equality of every feature value, and every
missing-value sentinel reproduced as a sentinel. -/
theorem to_json_from_json_roundtrip (fg : FingerprintGenerator)
    (h1 : fg.wellKeyed) (h2 : fg.schemaConsistent) :
    FingerprintGenerator.from_json fg.to_json = Except.ok fg := by
  unfold FingerprintGenerator.from_json
  rw [parseDocument_to_json fg h1]
  simp [recordsConsistent_of_schemaConsistent fg h2]

/-- C1 witness: the round trip at a concrete two-record collection whose
feature values include 3/2, -9/4 and missing-value sentinels. -/
theorem to_json_from_json_roundtrip_witness :
    FingerprintGenerator.from_json exampleCollection.to_json =
      Except.ok exampleCollection :=
  to_json_from_json_roundtrip exampleCollection (by decide) (by decide)

/-- C2: for every non-empty worklist, session and parallelism degree
n ≥ 1, the resulting collection's identifiers are exactly the worklist
filtered to successful computations, in worklist order, and the whole
collection coincides with the sequential (n = 1) one — parallel
completion order never changes the merged result. -/
theorem from_structure_klifs_ids_parallelism_invariant {ι : Type}
    (wl : List Nat) (s : Session ι) (ex : Extract ι) (n : Int)
    (h1 : 1 ≤ n) (h2 : wl ≠ []) :
    (FingerprintGenerator.from_structure_klifs_ids wl s ex n).1.map
        (fun r => r.fingerprints.ids) =
      Except.ok (wl.filter (fun id => (computeOne s ex id).isSome)) ∧
    (FingerprintGenerator.from_structure_klifs_ids wl s ex n).1.map
        (fun r => r.fingerprints) =
      (FingerprintGenerator.from_structure_klifs_ids wl s ex 1).1.map
        (fun r => r.fingerprints) := by
  rw [from_structure_klifs_ids_ok wl s ex n h1,
      from_structure_klifs_ids_ok wl s ex 1 (le_refl 1)]
  exact ⟨by simp [Except.map, FingerprintGenerator.ids, successList_map_fst], rfl⟩

/-- C2 witness: the worklist [109, 118, 110] (118 fails extraction) at
parallelism 2 yields identifiers [109, 110] and the same collection as
sequential processing. -/
theorem from_structure_klifs_ids_parallelism_invariant_witness :
    [109, 118, 110] ≠ ([] : List Nat) ∧
    ((FingerprintGenerator.from_structure_klifs_ids [109, 118, 110]
          exampleSession exampleExtract 2).1.map (fun r => r.fingerprints.ids) =
        Except.ok ([109, 118, 110].filter
          (fun id => (computeOne exampleSession exampleExtract id).isSome)) ∧
      (FingerprintGenerator.from_structure_klifs_ids [109, 118, 110]
          exampleSession exampleExtract 2).1.map (fun r => r.fingerprints) =
        (FingerprintGenerator.from_structure_klifs_ids [109, 118, 110]
          exampleSession exampleExtract 1).1.map (fun r => r.fingerprints)) :=
  ⟨by decide,
   from_structure_klifs_ids_parallelism_invariant [109, 118, 110]
     exampleSession exampleExtract 2 (by decide) (by decide)⟩

/-- C3: a record whose fetch or extraction fails is absent from the
output collection and never aborts the batch (the orchestrator still
returns a collection); concretely, worklist [109, 118, 110] with a
session where 118 always fails extraction and parallelism 1 yields
exactly identifiers [109, 110] in that order, with diagnostics
reporting 3 inputs and 2 produced fingerprints. -/
theorem from_structure_klifs_ids_drops_failed_records {ι : Type}
    (wl : List Nat) (s : Session ι) (ex : Extract ι) (id0 : Nat)
    (hfail : computeOne s ex id0 = none) :
    (∃ r, (FingerprintGenerator.from_structure_klifs_ids wl s ex 1).1 =
        Except.ok r ∧ id0 ∉ r.fingerprints.ids) ∧
    (FingerprintGenerator.from_structure_klifs_ids [109, 118, 110]
          exampleSession exampleExtract 1).1.map
        (fun r => (r.fingerprints.ids, r.diagnostics.n_input,
                   r.diagnostics.n_fingerprints_not_none)) =
      Except.ok ([109, 110], 3, 2) := by
  constructor
  · rw [from_structure_klifs_ids_ok wl s ex 1 (le_refl 1)]
    refine ⟨_, rfl, ?_⟩
    intro hmem
    unfold FingerprintGenerator.ids at hmem
    rw [successList_map_fst] at hmem
    have hp := List.of_mem_filter hmem
    rw [hfail] at hp
    cases hp
  · decide

/-- C3 witness: applied to identifier 118, which fails extraction under
the example session. -/
theorem from_structure_klifs_ids_drops_failed_records_witness :
    (∃ r, (FingerprintGenerator.from_structure_klifs_ids [109, 118, 110]
        exampleSession exampleExtract 1).1 = Except.ok r ∧
        118 ∉ r.fingerprints.ids) ∧
    (FingerprintGenerator.from_structure_klifs_ids [109, 118, 110]
          exampleSession exampleExtract 1).1.map
        (fun r => (r.fingerprints.ids, r.diagnostics.n_input,
                   r.diagnostics.n_fingerprints_not_none)) =
      Except.ok ([109, 110], 3, 2) :=
  from_structure_klifs_ids_drops_failed_records [109, 118, 110]
    exampleSession exampleExtract 118 (by decide)

/-- C4: calling the orchestrator with parallelism 0 or negative raises a
configuration error before any computation starts: the result is the
configuration error and the trace of fetch calls made on the session is
empty. -/
theorem from_structure_klifs_ids_invalid_n_cores_fails_fast {ι : Type}
    (wl : List Nat) (s : Session ι) (ex : Extract ι) (n : Int) (h : n ≤ 0) :
    FingerprintGenerator.from_structure_klifs_ids wl s ex n =
      (Except.error ConfigError.invalidNCores, []) := by
  unfold FingerprintGenerator.from_structure_klifs_ids
  rw [if_pos (by omega)]

/-- C4 witness: parallelism 0 on a concrete worklist fails fast with no
fetch call. -/
theorem from_structure_klifs_ids_invalid_n_cores_fails_fast_witness :
    (0 : Int) ≤ 0 ∧
    FingerprintGenerator.from_structure_klifs_ids [109, 118, 110]
        exampleSession exampleExtract 0 =
      (Except.error ConfigError.invalidNCores, []) :=
  ⟨by decide,
   from_structure_klifs_ids_invalid_n_cores_fails_fast [109, 118, 110]
     exampleSession exampleExtract 0 (by decide)⟩

/-- C8: the empty worklist yields an empty collection and no error, for
every session and every valid parallelism degree. -/
theorem empty_worklist_yields_empty_collection {ι : Type} (s : Session ι)
    (ex : Extract ι) (n : Int) (h : 1 ≤ n) :
    FingerprintGenerator.from_structure_klifs_ids [] s ex n =
      (Except.ok
        { fingerprints := { data := [] }
          diagnostics :=
            { n_cores := n, n_input := 0, n_fingerprints := 0,
              n_fingerprints_not_none := 0 } },
       []) := by
  rw [from_structure_klifs_ids_ok [] s ex n h]
  rfl

/-- C8 witness: the empty worklist at parallelism 2 under the example
session. -/
theorem empty_worklist_yields_empty_collection_witness :
    (1 : Int) ≤ 2 ∧
    FingerprintGenerator.from_structure_klifs_ids [] exampleSession
        exampleExtract 2 =
      (Except.ok
        { fingerprints := { data := [] }
          diagnostics :=
            { n_cores := 2, n_input := 0, n_fingerprints := 0,
              n_fingerprints_not_none := 0 } },
       []) :=
  ⟨by decide,
   empty_worklist_yields_empty_collection exampleSession exampleExtract 2
     (by decide)⟩

/-- C5: a persisted document in which two records' block shapes are
inconsistent with each other loads to a schema error — never a partial
collection — and a document not parseable as the expected structure
loads to a format error. -/
theorem from_json_error_conditions (doc : Document)
    (records : List (Nat × Fingerprint)) (e1 e2 : Nat × Fingerprint) :
    (parseDocument doc = none →
      FingerprintGenerator.from_json doc = Except.error LoadError.formatError) ∧
    (parseDocument doc = some records → e1 ∈ records → e2 ∈ records →
      (e1.2).schema ≠ (e2.2).schema →
      FingerprintGenerator.from_json doc = Except.error LoadError.schemaError) := by
  constructor
  · intro h
    unfold FingerprintGenerator.from_json
    rw [h]
  · intro hp h1 h2 hne
    unfold FingerprintGenerator.from_json
    rw [hp]
    have hc : ¬ (recordsConsistent records = true) := fun hc =>
      hne (schemas_eq_of_recordsConsistent records hc e1 e2 h1 h2)
    simp [hc]

/-- C5 witness: a malformed document yields the format error; a concrete
two-record document with inconsistent block shapes yields the schema
error. -/
theorem from_json_error_conditions_witness :
    FingerprintGenerator.from_json malformedDocument =
        Except.error LoadError.formatError ∧
    FingerprintGenerator.from_json inconsistentDocument =
        Except.error LoadError.schemaError :=
  ⟨(from_json_error_conditions malformedDocument
      [(109, exampleFingerprint109), (111, exampleFingerprintBadShape)]
      (109, exampleFingerprint109) (111, exampleFingerprintBadShape)).1
      (by decide),
   (from_json_error_conditions inconsistentDocument
      [(109, exampleFingerprint109), (111, exampleFingerprintBadShape)]
      (109, exampleFingerprint109) (111, exampleFingerprintBadShape)).2
      (by decide) (by decide) (by decide) (by decide)⟩

/-- C6: if save fails with an I/O error because the destination cannot
be written, the destination afterwards is unchanged — the atomic
write-to-temporary-then-rename scheme leaves no partial output. -/
theorem save_error_leaves_destination_unchanged
    (fg : FingerprintGenerator) (writable : Bool) (truncated : Document)
    (fs : FileState) (err : SaveError)
    (h : (fg.save writable truncated fs).1 = Except.error err) :
    (fg.save writable truncated fs).2.dest = fs.dest := by
  cases writable with
  | false => rfl
  | true =>
      exfalso
      simp [FingerprintGenerator.save, writeTemp, renameTempToDest] at h

/-- C6 witness: saving to an unwritable destination fails with the I/O
error and leaves the previously stored document in place. -/
theorem save_error_leaves_destination_unchanged_witness :
    (exampleCollection.save false [] exampleFileState).1 =
        Except.error SaveError.ioError ∧
    (exampleCollection.save false [] exampleFileState).2.dest =
        exampleFileState.dest :=
  ⟨rfl,
   save_error_leaves_destination_unchanged exampleCollection false []
     exampleFileState SaveError.ioError rfl⟩

/-- C7: when every identifier's computation fails, generation returns a
valid empty collection with no error, and the two produced-fingerprint
diagnostics differ accordingly: the former counts all attempts (the
worklist length), the latter only successes (zero). -/
theorem all_failures_yield_empty_collection {ι : Type} (wl : List Nat)
    (s : Session ι) (ex : Extract ι) (n : Int) (h1 : 1 ≤ n)
    (h2 : ∀ id ∈ wl, computeOne s ex id = none) :
    (FingerprintGenerator.from_structure_klifs_ids wl s ex n).1 =
      Except.ok
        { fingerprints := { data := [] }
          diagnostics :=
            { n_cores := n, n_input := wl.length,
              n_fingerprints := wl.length, n_fingerprints_not_none := 0 } } := by
  rw [from_structure_klifs_ids_ok wl s ex n h1]
  simp [successList_nil_of_all_fail s ex wl h2]

/-- C7 witness: a two-element worklist where extraction always fails
yields the empty collection and diagnostics counting 2 attempts and 0
successes. -/
theorem all_failures_yield_empty_collection_witness :
    (1 : Int) ≤ 1 ∧
    (FingerprintGenerator.from_structure_klifs_ids [109, 110] exampleSession
        failingExtract 1).1 =
      Except.ok
        { fingerprints := { data := [] }
          diagnostics :=
            { n_cores := 1, n_input := 2, n_fingerprints := 2,
              n_fingerprints_not_none := 0 } } :=
  ⟨by decide,
   all_failures_yield_empty_collection [109, 110] exampleSession
     failingExtract 1 (by decide) (by decide)⟩

/-- C9: collection invariants after the operations: after generation the
identifiers are unique (for a duplicate-free worklist, as the glossary
stipulates identifiers are unique within a worklist) and follow worklist
order (a sublist of the worklist); no entry corresponds to a failed
computation; the block schema is identical across every fingerprint
whenever extraction produces a fixed schema; and a collection
reconstructed by `from_json` is always schema-consistent (the load
validates it).  Fingerprints are plain immutable values in this model,
and `Fingerprint.values_array` is the order-preserving concatenation of
the stored blocks. -/
theorem collection_invariants {ι : Type} (wl : List Nat) (s : Session ι)
    (ex : Extract ι) (n : Int) (r : GenResult) (doc : Document)
    (fg : FingerprintGenerator) (σ : List (String × Nat))
    (h1 : 1 ≤ n)
    (hr : (FingerprintGenerator.from_structure_klifs_ids wl s ex n).1 =
      Except.ok r)
    (hnodup : wl.Nodup)
    (hschema : ∀ id x fp, ex id x = some fp → fp.schema = σ)
    (hload : FingerprintGenerator.from_json doc = Except.ok fg) :
    r.fingerprints.ids.Nodup ∧
    r.fingerprints.ids.Sublist wl ∧
    (∀ en ∈ r.fingerprints.data, computeOne s ex en.1 = some en.2) ∧
    r.fingerprints.schemaConsistent ∧
    fg.schemaConsistent := by
  rw [from_structure_klifs_ids_ok wl s ex n h1] at hr
  injection hr with hr
  subst hr
  refine ⟨?_, ?_, ?_, ?_, ?_⟩
  · show ((successList s ex wl).map Prod.fst).Nodup
    rw [successList_map_fst]
    exact hnodup.filter _
  · show ((successList s ex wl).map Prod.fst).Sublist wl
    rw [successList_map_fst]
    exact List.filter_sublist wl
  · intro en hen
    exact mem_successList s ex wl en hen
  · intro e1 he1 e2 he2
    rw [computeOne_schema s ex e1.1 e1.2 σ hschema (mem_successList s ex wl e1 he1),
        computeOne_schema s ex e2.1 e2.2 σ hschema (mem_successList s ex wl e2 he2)]
  · unfold FingerprintGenerator.from_json at hload
    split at hload
    · cases hload
    · next records hp =>
        split at hload
        · next hc =>
            injection hload with h3
            subst h3
            intro e1 he1 e2 he2
            exact schemas_eq_of_recordsConsistent records hc e1 e2 he1 he2
        · cases hload

/-- C9 witness: worklist [109] under the example session/extraction, and
loading the document saved from the example collection. -/
theorem collection_invariants_witness :
    exampleGenResult.fingerprints.ids.Nodup ∧
    exampleGenResult.fingerprints.ids.Sublist [109] ∧
    computeOne exampleSession exampleExtract 109 = some exampleFingerprint109 ∧
    exampleGenResult.fingerprints.schemaConsistent ∧
    exampleCollection.schemaConsistent := by
  have h := collection_invariants [109] exampleSession exampleExtract 1
    exampleGenResult exampleCollection.to_json exampleCollection exampleSchema
    (by decide) (by decide) (by decide)
    (fun id x fp hfp => by
      unfold exampleExtract at hfp
      split at hfp
      · cases hfp
      · injection hfp with h2
        subst h2
        rfl)
    (by decide)
  exact ⟨h.1, h.2.1, h.2.2.1 (109, exampleFingerprint109) (by decide),
    h.2.2.2.1, h.2.2.2.2⟩

/-- C10: when every identifier's fetch and extraction succeed, the
diagnostics satisfy: number of input structures = number of produced
fingerprints = number of produced fingerprints excluding failures =
worklist length, at every parallelism degree n ≥ 1 (sequential and
parallel). -/
theorem all_success_diagnostics_counts {ι : Type} (wl : List Nat)
    (s : Session ι) (ex : Extract ι) (n : Int) (h1 : 1 ≤ n)
    (h2 : ∀ id ∈ wl, (computeOne s ex id).isSome = true) :
    (FingerprintGenerator.from_structure_klifs_ids wl s ex n).1.map
        (fun r => (r.diagnostics.n_input, r.diagnostics.n_fingerprints,
                   r.diagnostics.n_fingerprints_not_none)) =
      Except.ok (wl.length, wl.length, wl.length) := by
  rw [from_structure_klifs_ids_ok wl s ex n h1]
  simp [Except.map, successList_length_of_all_succeed s ex wl h2]

/-- C10 witness: a three-element worklist where every record succeeds,
processed with two cores, reports 3 = 3 = 3. -/
theorem all_success_diagnostics_counts_witness :
    (1 : Int) ≤ 2 ∧
    (FingerprintGenerator.from_structure_klifs_ids [109, 110, 111]
        exampleSession exampleExtract 2).1.map
        (fun r => (r.diagnostics.n_input, r.diagnostics.n_fingerprints,
                   r.diagnostics.n_fingerprints_not_none)) =
      Except.ok (3, 3, 3) :=
  ⟨by decide,
   all_success_diagnostics_counts [109, 110, 111] exampleSession
     exampleExtract 2 (by decide) (by decide)⟩

end Kissim
